import Mathlib

/-!
Verification of the Gemini service integration layer (`src/geminiService.ts`).

The module under verification is a thin client around an external
generative-language service.  Its own logic is prompt construction, request
configuration, response parsing (`JSON.parse`), and error surfacing.  We embed
that logic shallowly: the external service's behaviour at each call is an
explicit input (`ServiceOutcome`), side effects (console warnings, console
error logs, parse attempts, outbound requests) are recorded in the returned
run record, and `JSON.parse` is given an executable reference model.
-/

/-- JSON values, as produced by `JSON.parse`.  Numbers are kept in scientific
form (`mantissa * 10 ^ exponent`); the claims under verification are purely
structural, so numeric precision is irrelevant. -/
inductive Json where
  | null : Json
  | bool (b : Bool) : Json
  | num (mantissa : Int) (exponent : Int) : Json
  | str (s : String) : Json
  | arr (items : List Json) : Json
  | obj (fields : List (String × Json)) : Json

/-- JavaScript falsiness of a `string | undefined` value: `undefined` and the
empty string are falsy (`!x` is true), every other string is truthy. -/
def isFalsyStr : Option String → Bool
  | none => true
  | some s => s = ""

/-- JavaScript `x || d` on a `string | undefined` value `x`: the default `d`
is used when `x` is falsy. -/
def jsOr (x : Option String) (d : String) : String :=
  match x with
  | none => d
  | some s => if s = "" then d else s

/-- JSON whitespace. -/
def isJsonWs (c : Char) : Bool :=
  c = ' ' || c = '\t' || c = '\n' || c = '\r'

/-- Drop leading JSON whitespace. -/
def skipWs (cs : List Char) : List Char :=
  cs.dropWhile isJsonWs

/-- Value of a hexadecimal digit, if any. -/
def hexDigit? (c : Char) : Option Nat :=
  if '0' ≤ c && c ≤ '9' then some (c.toNat - 48)
  else if 'a' ≤ c && c ≤ 'f' then some (c.toNat - 87)
  else if 'A' ≤ c && c ≤ 'F' then some (c.toNat - 55)
  else none

/-- `JSON.parse` failure on truncated input (classic V8 wording). -/
def endOfInputMsg : String := "Unexpected end of JSON input"

/-- `JSON.parse` failure at an unexpected character (classic V8 wording:
`Unexpected token c in JSON at position n`); `total` is the length of the
whole input, `cs` the unconsumed suffix. -/
def unexpectedTokenMsg (total : Nat) (cs : List Char) : String :=
  match cs with
  | [] => endOfInputMsg
  | c :: _ =>
    "Unexpected token " ++ String.singleton c ++ " in JSON at position "
      ++ toString (total - cs.length)

/-- Body of a JSON string literal, after the opening quote: consume up to the
closing quote, handling the escape sequences of the JSON grammar. -/
def parseStringBody (total : Nat) : Nat → List Char → String →
    Except String (String × List Char)
  | 0, _, _ => Except.error endOfInputMsg
  | _ + 1, [], _ => Except.error endOfInputMsg
  | fuel + 1, c :: rest, acc =>
    if c = '"' then Except.ok (acc, rest)
    else if c = '\\' then
      match rest with
      | [] => Except.error endOfInputMsg
      | e :: rest2 =>
        if e = '"' then parseStringBody total fuel rest2 (acc.push '"')
        else if e = '\\' then parseStringBody total fuel rest2 (acc.push '\\')
        else if e = '/' then parseStringBody total fuel rest2 (acc.push '/')
        else if e = 'b' then parseStringBody total fuel rest2 (acc.push (Char.ofNat 8))
        else if e = 'f' then parseStringBody total fuel rest2 (acc.push (Char.ofNat 12))
        else if e = 'n' then parseStringBody total fuel rest2 (acc.push '\n')
        else if e = 'r' then parseStringBody total fuel rest2 (acc.push '\r')
        else if e = 't' then parseStringBody total fuel rest2 (acc.push '\t')
        else if e = 'u' then
          match rest2 with
          | h1 :: h2 :: h3 :: h4 :: rest3 =>
            match hexDigit? h1, hexDigit? h2, hexDigit? h3, hexDigit? h4 with
            | some a, some b, some c3, some d =>
              parseStringBody total fuel rest3
                (acc.push (Char.ofNat (((a * 16 + b) * 16 + c3) * 16 + d)))
            | _, _, _, _ => Except.error (unexpectedTokenMsg total rest2)
          | _ => Except.error endOfInputMsg
        else Except.error (unexpectedTokenMsg total rest)
    else parseStringBody total fuel rest (acc.push c)

/-- Digits of a decimal run, as a natural number. -/
def digitsToNat (ds : List Char) : Nat :=
  ds.foldl (fun n c => n * 10 + (c.toNat - 48)) 0

/-- A JSON number starting at `cs`: optional minus, integer part without
leading zeros, optional fraction, optional exponent.  Returns the value in
scientific form together with the unconsumed suffix. -/
def parseNumber (total : Nat) (cs : List Char) : Except String (Json × List Char) :=
  let (neg, cs1) :=
    match cs with
    | '-' :: rest => (true, rest)
    | _ => (false, cs)
  let (intDigits, cs2) := cs1.span Char.isDigit
  match intDigits with
  | [] => Except.error (unexpectedTokenMsg total cs1)
  | d0 :: ds0 =>
    if d0 = '0' && ds0 ≠ [] then Except.error (unexpectedTokenMsg total cs1)
    else
      let (fracDigits, cs3) :=
        match cs2 with
        | '.' :: rest => rest.span Char.isDigit
        | _ => ([], cs2)
      if cs2 ≠ cs3 && fracDigits = [] then Except.error (unexpectedTokenMsg total cs3)
      else
        let mant0 : Nat := digitsToNat (intDigits ++ fracDigits)
        let exp0 : Int := -(fracDigits.length : Int)
        match cs3 with
        | 'e' :: rest | 'E' :: rest =>
          let (expNeg, rest1) :=
            match rest with
            | '-' :: r => (true, r)
            | '+' :: r => (false, r)
            | _ => (false, rest)
          let (expDigits, cs4) := rest1.span Char.isDigit
          if expDigits = [] then Except.error (unexpectedTokenMsg total rest1)
          else
            let e : Int := if expNeg then -(digitsToNat expDigits : Int)
                           else (digitsToNat expDigits : Int)
            Except.ok (Json.num (if neg then -(mant0 : Int) else (mant0 : Int)) (exp0 + e), cs4)
        | _ =>
          Except.ok (Json.num (if neg then -(mant0 : Int) else (mant0 : Int)) exp0, cs3)

mutual

/-- A JSON value starting at (whitespace-skipped) `cs`. -/
def parseVal (total : Nat) : Nat → List Char → Except String (Json × List Char)
  | 0, _ => Except.error endOfInputMsg
  | fuel + 1, cs =>
    match skipWs cs with
    | [] => Except.error endOfInputMsg
    | 'n' :: 'u' :: 'l' :: 'l' :: rest => Except.ok (Json.null, rest)
    | 't' :: 'r' :: 'u' :: 'e' :: rest => Except.ok (Json.bool true, rest)
    | 'f' :: 'a' :: 'l' :: 's' :: 'e' :: rest => Except.ok (Json.bool false, rest)
    | '"' :: rest =>
      match parseStringBody total (rest.length + 1) rest "" with
      | Except.ok (s, rest2) => Except.ok (Json.str s, rest2)
      | Except.error e => Except.error e
    | '[' :: rest =>
      (match skipWs rest with
       | ']' :: rest2 => Except.ok (Json.arr [], rest2)
       | _ => parseItems total fuel rest [])
    | '{' :: rest =>
      (match skipWs rest with
       | '}' :: rest2 => Except.ok (Json.obj [], rest2)
       | _ => parseMembers total fuel rest [])
    | c :: rest =>
      if c = '-' || c.isDigit then parseNumber total (c :: rest)
      else Except.error (unexpectedTokenMsg total (c :: rest))

/-- Remaining items of a non-empty JSON array (after `[` or a `,`). -/
def parseItems (total : Nat) : Nat → List Char → List Json →
    Except String (Json × List Char)
  | 0, _, _ => Except.error endOfInputMsg
  | fuel + 1, cs, acc =>
    match parseVal total fuel cs with
    | Except.error e => Except.error e
    | Except.ok (v, rest) =>
      match skipWs rest with
      | ']' :: rest2 => Except.ok (Json.arr (acc ++ [v]), rest2)
      | ',' :: rest2 => parseItems total fuel rest2 (acc ++ [v])
      | other => Except.error (unexpectedTokenMsg total other)

/-- Remaining members of a non-empty JSON object (after `{` or a `,`). -/
def parseMembers (total : Nat) : Nat → List Char → List (String × Json) →
    Except String (Json × List Char)
  | 0, _, _ => Except.error endOfInputMsg
  | fuel + 1, cs, acc =>
    match skipWs cs with
    | '"' :: rest =>
      match parseStringBody total (rest.length + 1) rest "" with
      | Except.error e => Except.error e
      | Except.ok (k, rest2) =>
        match skipWs rest2 with
        | ':' :: rest3 =>
          match parseVal total fuel rest3 with
          | Except.error e => Except.error e
          | Except.ok (v, rest4) =>
            match skipWs rest4 with
            | '}' :: rest5 => Except.ok (Json.obj (acc ++ [(k, v)]), rest5)
            | ',' :: rest5 => parseMembers total fuel rest5 (acc ++ [(k, v)])
            | other => Except.error (unexpectedTokenMsg total other)
        | other => Except.error (unexpectedTokenMsg total other)
    | other => Except.error (unexpectedTokenMsg total other)

end

/-- Reference model of the JavaScript `JSON.parse` builtin: either the parsed
value, or a `SyntaxError` message.  Error messages follow the classic V8
format (`Unexpected token c in JSON at position n` / `Unexpected end of JSON
input`), which reports the offending character and position but does not echo
the input text. -/
def jsonParse (s : String) : Except String Json :=
  let cs := s.toList
  let total := cs.length
  match parseVal total (2 * total + 2) cs with
  | Except.error e => Except.error e
  | Except.ok (j, rest) =>
    match skipWs rest with
    | [] => Except.ok j
    | other => Except.error (unexpectedTokenMsg total other)

/-- The schema language of the structured-output request (`Type.OBJECT`,
`Type.ARRAY`, `Type.STRING` with `properties`/`items`/`required`), as used in
`geminiService.ts` lines 50-87. -/
inductive Schema where
  | string : Schema
  | array (items : Schema) : Schema
  | object (properties : List (String × Schema)) (required : List String) : Schema

/-- Top-level `required` list of a schema (empty for non-objects). -/
def Schema.topRequired : Schema → List String
  | Schema.object _ required => required
  | _ => []

/-- Names of the declared properties of a schema (empty for non-objects). -/
def Schema.propNames : Schema → List String
  | Schema.object properties _ => properties.map Prod.fst
  | _ => []

/-- The declared schema of a property, if any. -/
def Schema.prop : Schema → String → Option Schema
  | Schema.object properties _, k =>
    (properties.find? (fun p => p.1 = k)).map Prod.snd
  | _, _ => none

/-- The `items` schema of an array schema, if any. -/
def Schema.items : Schema → Option Schema
  | Schema.array items => some items
  | _ => none

/-- The `responseSchema` object passed with every notes request
(`geminiService.ts` lines 50-87). -/
def notesResponseSchema : Schema :=
  Schema.object
    [ ("introduction", Schema.string),
      ("definition", Schema.string),
      ("classification", Schema.array (Schema.object
        [ ("type", Schema.string), ("explanation", Schema.string) ]
        ["type", "explanation"])),
      ("detailedExplanation", Schema.array Schema.string),
      ("examples", Schema.array Schema.string),
      ("diagramDescription", Schema.string),
      ("examPoints", Schema.array (Schema.object
        [ ("point", Schema.string), ("mnemonic", Schema.string) ]
        ["point"])),
      ("shortAnswerQuestions", Schema.array Schema.string),
      ("longAnswerQuestions", Schema.array Schema.string),
      ("pyqs", Schema.array Schema.string),
      ("vivaQuestions", Schema.array Schema.string),
      ("clinicalCorrelation", Schema.string) ]
    ["introduction", "detailedExplanation", "examples", "examPoints",
     "shortAnswerQuestions", "longAnswerQuestions", "pyqs", "vivaQuestions"]

/-- Modelled from the spec: the `UserPreferences` input type is declared in
`types.ts`, which is not in the source tree; its fields are taken from their
uses in `generateStudyNotes` and from §3 of the spec (subject, semester,
topic, desired length, optional target university, three boolean flags). -/
structure UserPreferences where
  subject : String
  semester : String
  topic : String
  length : String
  university : Option String
  includeDiagrams : Bool
  includeMnemonics : Bool
  includeClinicalCorrelation : Bool

/-- JavaScript template interpolation of a boolean. -/
def jsBoolStr (b : Bool) : String :=
  if b then "true" else "false"

/-- The fixed `SYSTEM_PROMPT` template literal (`geminiService.ts` lines 5-17). -/
def SYSTEM_PROMPT : String :=
  "\n  You are an expert B.Pharm professor and academic mentor specializing in Indian PCI (Pharmacy Council of India) syllabus.\n  Your task is to generate highly structured, exam-oriented study notes for first-year pharmacy students.\n  \n  CRITICAL RULES:\n  1. Language: Simple, academic, and professional.\n  2. Context: Suitable for 2, 5, and 10 marks university questions.\n  3. Content: Must be technically accurate and include pharmacy-specific examples.\n  4. Mnemonics: If requested, provide catchy and easy-to-remember mnemonics for classifications or lists.\n  5. Diagrams: Provide clear, text-based descriptions of labeled diagrams that a student can draw.\n  \n  You must return the response as a valid JSON object matching the provided schema exactly.\n"

/-- The per-call `userPrompt` template literal of `generateStudyNotes`
(`geminiService.ts` lines 30-41), with `prefs.university || 'Any
PCI-affiliated University'` for the optional university. -/
def userPrompt (prefs : UserPreferences) : String :=
  "\n    Subject: " ++ prefs.subject ++
  "\n    Semester: " ++ prefs.semester ++
  "\n    Topic: " ++ prefs.topic ++
  "\n    Level of Detail: " ++ prefs.length ++
  "\n    Target University: " ++ jsOr prefs.university "Any PCI-affiliated University" ++
  "\n    \n    Specific Requirements:" ++
  "\n    - Include Diagram Description: " ++ jsBoolStr prefs.includeDiagrams ++
  "\n    - Include Mnemonics: " ++ jsBoolStr prefs.includeMnemonics ++
  "\n    - Include Clinical/Practical Correlation: " ++ jsBoolStr prefs.includeClinicalCorrelation ++
  "\n  "

/-- The fixed `prompt` template literal of `analyzePharmacyImage`
(`geminiService.ts` lines 103-123). -/
def imagePrompt : String :=
  "\n    Analyze this pharmacy academic image. IDENTIFY correctly and PROVIDE academic context.\n    \n    Structure your response as follows:\n    # Identification\n    [Clear name of what is shown]\n\n    # Academic Context\n    [Which B.Pharm subject/semester does this belong to?]\n\n    # Exam Focus\n    [Important points for a 5-mark answer]\n\n    # Practical & Safety\n    [Laboratory precautions or clinical relevance]\n\n    # Correction Note (if applicable)\n    [Point out any spelling/factual errors in the image if it\x27s a student\x27s note]\n    \n    Use markdown format with # for headings (they will be cleaned by UI) and * bullet points. Be professional and highly detailed.\n  "

/-- The fixed system instruction of `analyzePharmacyImage`
(`geminiService.ts` line 135). -/
def imageSystemInstruction : String :=
  "You are an expert Pharmacy Professor. Your analysis is used by B.Pharm students for exam preparation. Be technically rigorous and structured."

/-- The fixed system instruction of `createPharmacyChatSession`
(`geminiService.ts` line 152). -/
def chatSystemInstruction : String :=
  "You are \x27PharmAssistant\x27, a virtual mentor for B.Pharm students. Provide helpful, exam-focused answers. Always advise consulting a professional for health issues."

/-- The warning emitted by `getApiKey` when the credential is missing
(`geminiService.ts` line 22). -/
def apiKeyWarning : String :=
  "API Key is missing. Ensure process.env.API_KEY is configured."

/-- `getApiKey` (`geminiService.ts` lines 19-25): the credential from
`process.env.API_KEY` (an `Option String`, `none` when unset), together with
the `console.warn` entries emitted.  `!key` is the JavaScript falsiness test
and `key || ""` the defaulting. -/
def getApiKey (env : Option String) : String × List String :=
  let warnings := if isFalsyStr env then [apiKeyWarning] else []
  (jsOr env "", warnings)

/-- Configuration of a `GoogleGenAI` client handle (`new GoogleGenAI({ apiKey })`). -/
structure ClientCfg where
  apiKey : String

/-- An outbound `generateContent` request, as configured by this module:
model name, text part, optional inline image part (base64 data and MIME
type), system instruction, and the optional structured-output settings. -/
structure GenRequest where
  model : String
  userText : String
  imagePart : Option (String × String)
  systemInstruction : String
  responseMimeType : Option String
  schema : Option Schema

/-- Outcome of one call to the external service: either a response whose
`text` field is a `string | undefined`, or a thrown error whose `message` is
a `string | undefined`. -/
inductive ServiceOutcome where
  | success (text : Option String) : ServiceOutcome
  | failure (message : Option String) : ServiceOutcome

/-- The failure taxonomy of `generateStudyNotes` (§7 of the spec): empty
reply, `JSON.parse` failure (with the parser's message), or a service-level
failure (with the underlying error's `message`, possibly absent). -/
inductive NotesError where
  | emptyResponse : NotesError
  | parseError (msg : String) : NotesError
  | serviceError (msg : Option String) : NotesError

/-- The message of the empty-response error (`geminiService.ts` line 92). -/
def emptyResponseMsg : String :=
  "The AI returned an empty response. Please try again."

/-- The generic fallback message of `generateStudyNotes`
(`geminiService.ts` line 96). -/
def notesFallbackMsg : String :=
  "Could not generate academic notes."

/-- Message of the error caught by the `catch` block of `generateStudyNotes`
for each failure kind. -/
def NotesError.caughtMessage : NotesError → Option String
  | NotesError.emptyResponse => some emptyResponseMsg
  | NotesError.parseError msg => some msg
  | NotesError.serviceError msg => msg

/-- The message rethrown at the boundary of `generateStudyNotes`:
`error.message || "Could not generate academic notes."`. -/
def NotesError.thrownMessage (e : NotesError) : String :=
  jsOr e.caughtMessage notesFallbackMsg

/-- One run of `generateStudyNotes`: the client handle it constructed, the
requests it issued, its `console.warn` and `console.error` output (label and
the logged error's message), the texts it passed to `JSON.parse`, and the
result returned or thrown at the boundary. -/
structure NotesRun where
  client : ClientCfg
  networkCalls : List GenRequest
  warnings : List String
  errorLog : List (String × Option String)
  parseCalls : List String
  result : Except NotesError Json

/-- The request configured by `generateStudyNotes`
(`geminiService.ts` lines 44-89). -/
def notesRequest (prefs : UserPreferences) : GenRequest :=
  { model := "gemini-3-pro-preview",
    userText := userPrompt prefs,
    imagePart := none,
    systemInstruction := SYSTEM_PROMPT,
    responseMimeType := some "application/json",
    schema := some notesResponseSchema }

/-- `generateStudyNotes` (`geminiService.ts` lines 27-98), with the process
environment (`process.env.API_KEY`) and the external service's behaviour as
explicit inputs.  The `try` body checks `!text`, then parses; every throw is
caught, logged as `console.error("Gemini API Error:", error)`, and rethrown
with `error.message || "Could not generate academic notes."`. -/
def generateStudyNotes (env : Option String) (prefs : UserPreferences)
    (outcome : ServiceOutcome) : NotesRun :=
  let keyWarn := getApiKey env
  let req := notesRequest prefs
  match outcome with
  | ServiceOutcome.failure msg =>
    { client := { apiKey := keyWarn.1 }, networkCalls := [req],
      warnings := keyWarn.2,
      errorLog := [("Gemini API Error:", msg)],
      parseCalls := [],
      result := Except.error (NotesError.serviceError msg) }
  | ServiceOutcome.success text =>
    if isFalsyStr text then
      { client := { apiKey := keyWarn.1 }, networkCalls := [req],
        warnings := keyWarn.2,
        errorLog := [("Gemini API Error:", some emptyResponseMsg)],
        parseCalls := [],
        result := Except.error NotesError.emptyResponse }
    else
      let t := jsOr text ""
      match jsonParse t with
      | Except.ok j =>
        { client := { apiKey := keyWarn.1 }, networkCalls := [req],
          warnings := keyWarn.2,
          errorLog := [],
          parseCalls := [t],
          result := Except.ok j }
      | Except.error pmsg =>
        { client := { apiKey := keyWarn.1 }, networkCalls := [req],
          warnings := keyWarn.2,
          errorLog := [("Gemini API Error:", some pmsg)],
          parseCalls := [t],
          result := Except.error (NotesError.parseError pmsg) }

/-- The message rethrown at the boundary of a notes run, if the run failed. -/
def NotesRun.thrownMessage (r : NotesRun) : Option String :=
  match r.result with
  | Except.error e => some e.thrownMessage
  | Except.ok _ => none

/-- The fallback text returned by `analyzePharmacyImage` for an empty reply
(`geminiService.ts` line 139). -/
def imageFallbackText : String := "Analysis unavailable for this image."

/-- The fixed message thrown by `analyzePharmacyImage` on any service failure
(`geminiService.ts` line 142). -/
def imageErrorMsg : String := "Failed to process image lab analysis."

/-- One run of `analyzePharmacyImage`: client handle, issued requests,
console output, and the text returned or the message thrown. -/
structure ImageRun where
  client : ClientCfg
  networkCalls : List GenRequest
  warnings : List String
  errorLog : List (String × Option String)
  result : Except String String

/-- The request configured by `analyzePharmacyImage`
(`geminiService.ts` lines 126-137): an inline image part plus the fixed text
part, no structured-output settings. -/
def imageRequest (base64Image : String) (mimeType : String) : GenRequest :=
  { model := "gemini-3-pro-preview",
    userText := imagePrompt,
    imagePart := some (base64Image, mimeType),
    systemInstruction := imageSystemInstruction,
    responseMimeType := none,
    schema := none }

/-- `analyzePharmacyImage` (`geminiService.ts` lines 100-144): returns
`response.text || "Analysis unavailable for this image."`; on any service
failure it logs `console.error("Image Analysis Error:", error)` and throws
the fixed message `"Failed to process image lab analysis."`. -/
def analyzePharmacyImage (env : Option String) (base64Image : String)
    (mimeType : String) (outcome : ServiceOutcome) : ImageRun :=
  let keyWarn := getApiKey env
  let req := imageRequest base64Image mimeType
  match outcome with
  | ServiceOutcome.failure msg =>
    { client := { apiKey := keyWarn.1 }, networkCalls := [req],
      warnings := keyWarn.2,
      errorLog := [("Image Analysis Error:", msg)],
      result := Except.error imageErrorMsg }
  | ServiceOutcome.success text =>
    { client := { apiKey := keyWarn.1 }, networkCalls := [req],
      warnings := keyWarn.2,
      errorLog := [],
      result := Except.ok (jsOr text imageFallbackText) }

/-- A chat session handle as configured by `ai.chats.create`
(`geminiService.ts` lines 149-154). -/
structure ChatSession where
  model : String
  systemInstruction : String

/-- One run of `createPharmacyChatSession`: client handle, outbound requests
issued during creation, console output, and the returned session.  Modelled
from the spec: the external client's `chats.create` is local and lazy
(§4.3: session creation performs no network call; failures surface only when
the session is used), so creation records no network call and the operation
always returns a handle. -/
structure ChatRun where
  client : ClientCfg
  networkCalls : List GenRequest
  warnings : List String
  session : ChatSession

/-- `createPharmacyChatSession` (`geminiService.ts` lines 146-155):
synchronously constructs a client and returns the session handle configured
with the fixed model and persona instruction. -/
def createPharmacyChatSession (env : Option String) : ChatRun :=
  let keyWarn := getApiKey env
  { client := { apiKey := keyWarn.1 },
    networkCalls := [],
    warnings := keyWarn.2,
    session := { model := "gemini-3-pro-preview",
                 systemInstruction := chatSystemInstruction } }

/-- Field lookup in a parsed JSON object. -/
def lookupField (fields : List (String × Json)) (k : String) : Option Json :=
  (fields.find? (fun p => p.1 = k)).map Prod.snd

/-- Modelled from the spec: the structured-output guarantee (§ glossary —
the service is constrained to return JSON matching the declared schema).
A JSON value satisfies a schema when strings are strings, every array item
satisfies the `items` schema, every `required` name of an object schema is
present, and every present field with a declared property schema satisfies
it.  `fuel` bounds the recursion depth. -/
def satisfiesF : Nat → Schema → Json → Bool
  | 0, _, _ => false
  | _ + 1, Schema.string, j =>
    match j with
    | Json.str _ => true
    | _ => false
  | fuel + 1, Schema.array items, j =>
    match j with
    | Json.arr xs => xs.all (fun x => satisfiesF fuel items x)
    | _ => false
  | fuel + 1, Schema.object properties required, j =>
    match j with
    | Json.obj fields =>
      required.all (fun r => (lookupField fields r).isSome) &&
      fields.all (fun kv =>
        match (properties.find? (fun p => p.1 = kv.1)).map Prod.snd with
        | some s => satisfiesF fuel s kv.2
        | none => true)
    | _ => false

/-- A JSON value satisfying the notes response schema (depth 4, so fuel 8 is
ample). -/
def satisfiesNotesSchema (j : Json) : Bool :=
  satisfiesF 8 notesResponseSchema j

/-- The eight top-level required fields of the declared schema
(`geminiService.ts` line 86). -/
def requiredFieldNames : List String :=
  ["introduction", "detailedExplanation", "examples", "examPoints",
   "shortAnswerQuestions", "longAnswerQuestions", "pyqs", "vivaQuestions"]

/-- A parsed value is an object in which all eight required fields are
present. -/
def requiredFieldsPresent (j : Json) : Bool :=
  match j with
  | Json.obj fields => requiredFieldNames.all (fun r => (lookupField fields r).isSome)
  | _ => false

/-- `needle` occurs as a contiguous substring of `haystack`. -/
def substrB (needle haystack : String) : Bool :=
  haystack.toList.tails.any (fun t => needle.toList.isPrefixOf t)

/-- All texts a notes run sent to the console: warnings, then error-log
entries rendered as `label message`. -/
def NotesRun.logTexts (r : NotesRun) : List String :=
  r.warnings ++ r.errorLog.map (fun e => e.1 ++ " " ++ jsOr e.2 "")

/-- A concrete preferences value used for witnesses and counterexamples. -/
def samplePrefs : UserPreferences :=
  { subject := "Pharmaceutics", semester := "Semester 1",
    topic := "Tablet coating", length := "Detailed", university := none,
    includeDiagrams := false, includeMnemonics := true,
    includeClinicalCorrelation := false }

/-- A service reply that satisfies the declared schema: all eight required
fields present with the declared types. -/
def schemaReply : String :=
  "\x7b\"introduction\":\"i\",\"detailedExplanation\":[\"d\"],\"examples\":[\"e\"],\"examPoints\":[\x7b\"point\":\"p\",\"mnemonic\":\"m\"\x7d],\"shortAnswerQuestions\":[\"s\"],\"longAnswerQuestions\":[\"l\"],\"pyqs\":[\"q\"],\"vivaQuestions\":[\"v\"]\x7d"

/-- The parse of `schemaReply`. -/
def schemaReplyJson : Json :=
  (jsonParse schemaReply).toOption.getD Json.null

/-- `x || d` is `d` on falsy `x`. -/
theorem jsOr_of_falsy (x : Option String) (d : String) (h : isFalsyStr x = true) :
    jsOr x d = d := by
  cases x with
  | none => rfl
  | some s =>
    simp only [isFalsyStr, decide_eq_true_eq] at h
    simp [jsOr, h]

/-- `x || d` is `x`'s value on a truthy `x`. -/
theorem jsOr_of_truthy (s : String) (d : String) (h : s ≠ "") :
    jsOr (some s) d = s := by
  simp [jsOr, h]

/-- A value satisfying an object schema is an object in which every required
name is present. -/
theorem satisfiesF_object_required (fuel : Nat) (props : List (String × Schema))
    (req : List String) (j : Json)
    (h : satisfiesF (fuel + 1) (Schema.object props req) j = true) :
    ∃ fields, j = Json.obj fields ∧
      req.all (fun r => (lookupField fields r).isSome) = true := by
  cases j with
  | obj fields =>
    refine ⟨fields, rfl, ?_⟩
    have h2 : (req.all (fun r => (lookupField fields r).isSome) &&
        fields.all (fun kv =>
          match (props.find? (fun p => p.1 = kv.1)).map Prod.snd with
          | some s => satisfiesF fuel s kv.2
          | none => true)) = true := h
    exact ((Bool.and_eq_true _ _).mp h2).1
  | null => exact Bool.noConfusion h
  | bool b => exact Bool.noConfusion h
  | num m e => exact Bool.noConfusion h
  | str s => exact Bool.noConfusion h
  | arr xs => exact Bool.noConfusion h

/-- A value satisfying the declared notes schema has all eight required
fields present. -/
theorem satisfiesNotesSchema_required (j : Json) (h : satisfiesNotesSchema j = true) :
    requiredFieldsPresent j = true := by
  obtain ⟨fields, hj, hall⟩ := satisfiesF_object_required 7 _ _ j h
  subst hj
  exact hall

/-- Every notes run issues exactly the one configured request. -/
theorem generateStudyNotes_networkCalls (env : Option String)
    (prefs : UserPreferences) (outcome : ServiceOutcome) :
    (generateStudyNotes env prefs outcome).networkCalls = [notesRequest prefs] := by
  cases outcome with
  | failure msg => rfl
  | success text =>
    by_cases h : isFalsyStr text = true
    · simp [generateStudyNotes, h]
    · cases hp : jsonParse (jsOr text "") <;> simp [generateStudyNotes, h, hp]

/-- Every notes run constructs its client from `getApiKey` and emits that
call's warnings. -/
theorem generateStudyNotes_credential (env : Option String)
    (prefs : UserPreferences) (outcome : ServiceOutcome) :
    (generateStudyNotes env prefs outcome).client.apiKey = (getApiKey env).1 ∧
    (generateStudyNotes env prefs outcome).warnings = (getApiKey env).2 := by
  cases outcome with
  | failure msg => exact ⟨rfl, rfl⟩
  | success text =>
    by_cases h : isFalsyStr text = true
    · constructor <;> simp [generateStudyNotes, h]
    · cases hp : jsonParse (jsOr text "") <;>
        (constructor <;> simp [generateStudyNotes, h, hp])

/-- Every image run constructs its client from `getApiKey` and emits that
call's warnings. -/
theorem analyzePharmacyImage_credential (env : Option String)
    (base64Image mimeType : String) (outcome : ServiceOutcome) :
    (analyzePharmacyImage env base64Image mimeType outcome).client.apiKey = (getApiKey env).1 ∧
    (analyzePharmacyImage env base64Image mimeType outcome).warnings = (getApiKey env).2 := by
  cases outcome <;> exact ⟨rfl, rfl⟩

/-- C1 (counterexample): the claim "generateStudyNotes never returns a value
in which a required field is absent" is false on the code: for the valid
non-empty JSON reply `"{}"` the operation returns `Json.obj []`, in which all
eight required fields are absent, without failing. -/
theorem generateStudyNotes_returns_missing_required_fields :
    (generateStudyNotes none samplePrefs
      (ServiceOutcome.success (some "{}"))).result = Except.ok (Json.obj []) ∧
    requiredFieldsPresent (Json.obj []) = false :=
  ⟨rfl, rfl⟩

/-- C1 (amended): a successful result of `generateStudyNotes` is exactly the
`JSON.parse` of the service's reply text — the code performs no local
validation — and whenever that value satisfies the declared structured-output
schema (the guarantee the request asks of the service), all eight required
fields are present in it; every failure is one of
EmptyResponse/ParseError/ServiceError (the `NotesError` taxonomy). -/
theorem generateStudyNotes_required_fields_under_schema (env : Option String)
    (prefs : UserPreferences) (outcome : ServiceOutcome) (j : Json)
    (hok : (generateStudyNotes env prefs outcome).result = Except.ok j) :
    (∃ t, outcome = ServiceOutcome.success (some t) ∧ jsonParse t = Except.ok j) ∧
    (satisfiesNotesSchema j = true → requiredFieldsPresent j = true) := by
  refine ⟨?_, fun hs => satisfiesNotesSchema_required j hs⟩
  cases outcome with
  | failure msg => simp [generateStudyNotes] at hok
  | success text =>
    cases text with
    | none => simp [generateStudyNotes, isFalsyStr] at hok
    | some t =>
      by_cases ht : t = ""
      · subst ht; simp [generateStudyNotes, isFalsyStr] at hok
      · refine ⟨t, rfl, ?_⟩
        cases hp : jsonParse t with
        | ok v =>
          have := hok
          simp [generateStudyNotes, isFalsyStr, ht, jsOr_of_truthy t "" ht, hp] at this
          exact congrArg Except.ok this
        | error e =>
          simp [generateStudyNotes, isFalsyStr, ht, jsOr_of_truthy t "" ht, hp] at hok

set_option maxRecDepth 8000 in
/-- C1 (witness): on a schema-satisfying reply the returned value has all
eight required fields. -/
theorem generateStudyNotes_required_fields_under_schema_witness :
    requiredFieldsPresent schemaReplyJson = true :=
  (generateStudyNotes_required_fields_under_schema none samplePrefs
    (ServiceOutcome.success (some schemaReply)) schemaReplyJson rfl).2 rfl

/-- C2: when the service's reply text is falsy (absent or empty),
`generateStudyNotes` fails with EmptyResponse and passes nothing to
`JSON.parse`. -/
theorem generateStudyNotes_empty_reply_emptyResponse (env : Option String)
    (prefs : UserPreferences) (text : Option String)
    (h : isFalsyStr text = true) :
    (generateStudyNotes env prefs (ServiceOutcome.success text)).result =
      Except.error NotesError.emptyResponse ∧
    (generateStudyNotes env prefs (ServiceOutcome.success text)).parseCalls = [] := by
  constructor <;> simp [generateStudyNotes, h]

/-- C2 (witness): an absent reply text yields EmptyResponse with no parse
attempt. -/
theorem generateStudyNotes_empty_reply_emptyResponse_witness :
    (generateStudyNotes none samplePrefs (ServiceOutcome.success none)).result =
      Except.error NotesError.emptyResponse ∧
    (generateStudyNotes none samplePrefs (ServiceOutcome.success none)).parseCalls = [] :=
  generateStudyNotes_empty_reply_emptyResponse none samplePrefs none rfl

/-- C3 (counterexample): the claim "the original reply text appears in the
local log output" is false on the code: the catch block logs only the caught
error (`console.error("Gemini API Error:", error)`), never the reply text.
For the non-JSON reply `"hello"` the run fails with ParseError, yet `"hello"`
is not a substring of anything the run logged (the parse error reports only
the offending character and position). -/
theorem generateStudyNotes_reply_text_not_logged :
    (generateStudyNotes none samplePrefs
      (ServiceOutcome.success (some "hello"))).result =
      Except.error (NotesError.parseError "Unexpected token h in JSON at position 0") ∧
    (generateStudyNotes none samplePrefs
      (ServiceOutcome.success (some "hello"))).logTexts.any (substrB "hello") = false :=
  ⟨rfl, rfl⟩

/-- C3 (amended): when the reply text is non-empty and `JSON.parse` rejects
it, `generateStudyNotes` fails with ParseError carrying the parser's message,
and the parse failure is logged locally before the rethrow (the log holds the
caught parser error; the reply text itself is not logged). -/
theorem generateStudyNotes_parse_failure_logged (env : Option String)
    (prefs : UserPreferences) (t : String) (pmsg : String)
    (ht : t ≠ "") (hp : jsonParse t = Except.error pmsg) :
    (generateStudyNotes env prefs (ServiceOutcome.success (some t))).result =
      Except.error (NotesError.parseError pmsg) ∧
    (generateStudyNotes env prefs (ServiceOutcome.success (some t))).errorLog =
      [("Gemini API Error:", some pmsg)] := by
  constructor <;>
    simp [generateStudyNotes, isFalsyStr, ht, jsOr_of_truthy t "" ht, hp]

/-- C3 (witness): the non-JSON reply `"hello"` is rejected with the parser's
message and that message is logged. -/
theorem generateStudyNotes_parse_failure_logged_witness :
    (generateStudyNotes none samplePrefs
      (ServiceOutcome.success (some "hello"))).errorLog =
      [("Gemini API Error:", some "Unexpected token h in JSON at position 0")] :=
  (generateStudyNotes_parse_failure_logged none samplePrefs "hello"
    "Unexpected token h in JSON at position 0" (by decide) rfl).2

/-- C4: on a service-level failure `generateStudyNotes` throws the underlying
error's message when it is present (truthy), and the generic fallback
"Could not generate academic notes." when the message is absent or empty. -/
theorem generateStudyNotes_service_error_message_passthrough (env : Option String)
    (prefs : UserPreferences) (msg : Option String) :
    (generateStudyNotes env prefs (ServiceOutcome.failure msg)).result =
      Except.error (NotesError.serviceError msg) ∧
    (generateStudyNotes env prefs (ServiceOutcome.failure msg)).thrownMessage =
      some (match msg with
            | none => notesFallbackMsg
            | some m => if m = "" then notesFallbackMsg else m) := by
  refine ⟨rfl, ?_⟩
  cases msg with
  | none => rfl
  | some m =>
    by_cases hm : m = "" <;>
      simp [generateStudyNotes, NotesRun.thrownMessage, NotesError.thrownMessage,
        NotesError.caughtMessage, jsOr, hm]

/-- C5: every notes request declares the structured-output schema whose
top-level required set is exactly the eight fields, whose `examPoints` item
requires only `point` while declaring `mnemonic` as an optional property, and
whose `classification` item requires both `type` and `explanation`. -/
theorem generateStudyNotes_declared_schema_required_sets (env : Option String)
    (prefs : UserPreferences) (outcome : ServiceOutcome) :
    (generateStudyNotes env prefs outcome).networkCalls.map GenRequest.schema =
      [some notesResponseSchema] ∧
    notesResponseSchema.topRequired =
      ["introduction", "detailedExplanation", "examples", "examPoints",
       "shortAnswerQuestions", "longAnswerQuestions", "pyqs", "vivaQuestions"] ∧
    ((notesResponseSchema.prop "examPoints").bind Schema.items).map Schema.topRequired =
      some ["point"] ∧
    ((notesResponseSchema.prop "examPoints").bind Schema.items).map Schema.propNames =
      some ["point", "mnemonic"] ∧
    ((notesResponseSchema.prop "classification").bind Schema.items).map Schema.topRequired =
      some ["type", "explanation"] := by
  refine ⟨?_, rfl, rfl, rfl, rfl⟩
  rw [generateStudyNotes_networkCalls]
  rfl

/-- C6: when the service's reply to `analyzePharmacyImage` is falsy (absent
or empty), the operation returns the literal fallback string and does not
fail. -/
theorem analyzePharmacyImage_empty_reply_fallback (env : Option String)
    (base64Image mimeType : String) (text : Option String)
    (h : isFalsyStr text = true) :
    (analyzePharmacyImage env base64Image mimeType
      (ServiceOutcome.success text)).result =
      Except.ok "Analysis unavailable for this image." := by
  have hfb : jsOr text imageFallbackText = imageFallbackText :=
    jsOr_of_falsy text imageFallbackText h
  simp only [analyzePharmacyImage]
  rw [hfb]
  rfl

/-- C6 (witness): an absent reply yields the fallback string. -/
theorem analyzePharmacyImage_empty_reply_fallback_witness :
    (analyzePharmacyImage none "aW1n" "image/png"
      (ServiceOutcome.success none)).result =
      Except.ok "Analysis unavailable for this image." :=
  analyzePharmacyImage_empty_reply_fallback none "aW1n" "image/png" none rfl

/-- C7: on any service-level failure `analyzePharmacyImage` throws the one
fixed message "Failed to process image lab analysis." — independent of the
underlying error, whose message is never forwarded — while the underlying
error is logged locally. -/
theorem analyzePharmacyImage_failure_fixed_message (env : Option String)
    (base64Image mimeType : String) (msg : Option String) :
    (analyzePharmacyImage env base64Image mimeType
      (ServiceOutcome.failure msg)).result =
      Except.error "Failed to process image lab analysis." ∧
    (analyzePharmacyImage env base64Image mimeType
      (ServiceOutcome.failure msg)).errorLog =
      [("Image Analysis Error:", msg)] :=
  ⟨rfl, rfl⟩

/-- C8: with the credential absent (or empty) in the process environment,
`getApiKey` returns the empty string and emits exactly one warning (and,
being a total function, never throws); each of the three operations resolves
the credential with its own `getApiKey` call, so each run's client uses the
empty key and each run emits the warning afresh. -/
theorem getApiKey_missing_credential_behaviour (env : Option String)
    (h : isFalsyStr env = true) :
    getApiKey env = ("", [apiKeyWarning]) ∧
    (∀ prefs outcome,
      (generateStudyNotes env prefs outcome).client.apiKey = "" ∧
      (generateStudyNotes env prefs outcome).warnings = [apiKeyWarning]) ∧
    (∀ base64Image mimeType outcome,
      (analyzePharmacyImage env base64Image mimeType outcome).client.apiKey = "" ∧
      (analyzePharmacyImage env base64Image mimeType outcome).warnings = [apiKeyWarning]) ∧
    ((createPharmacyChatSession env).client.apiKey = "" ∧
      (createPharmacyChatSession env).warnings = [apiKeyWarning]) := by
  have hkey : getApiKey env = ("", [apiKeyWarning]) := by
    simp [getApiKey, h, jsOr_of_falsy env "" h]
  refine ⟨hkey, fun prefs outcome => ?_, fun b m outcome => ?_, ?_, ?_⟩
  · obtain ⟨h1, h2⟩ := generateStudyNotes_credential env prefs outcome
    exact ⟨by rw [h1, hkey], by rw [h2, hkey]⟩
  · obtain ⟨h1, h2⟩ := analyzePharmacyImage_credential env b m outcome
    exact ⟨by rw [h1, hkey], by rw [h2, hkey]⟩
  · show (getApiKey env).1 = ""
    rw [hkey]
  · show (getApiKey env).2 = [apiKeyWarning]
    rw [hkey]

/-- C8 (witness): with the variable unset, the key is empty and each
operation warns once. -/
theorem getApiKey_missing_credential_behaviour_witness :
    getApiKey none = ("", [apiKeyWarning]) ∧
    (createPharmacyChatSession none).warnings = [apiKeyWarning] :=
  ⟨(getApiKey_missing_credential_behaviour none rfl).1,
   (getApiKey_missing_credential_behaviour none rfl).2.2.2.2⟩

/-- C9: `createPharmacyChatSession` issues no network call, cannot fail
locally (it is a total function into `ChatRun`), and for every environment it
returns the session handle configured with the fixed model and persona
instruction. -/
theorem createPharmacyChatSession_local_no_network (env : Option String) :
    (createPharmacyChatSession env).networkCalls = [] ∧
    (createPharmacyChatSession env).session =
      { model := "gemini-3-pro-preview",
        systemInstruction := chatSystemInstruction } :=
  ⟨rfl, rfl⟩

/-- C10: `generateStudyNotes` performs no structural validation of the parsed
reply: every reply text accepted by `JSON.parse` — `null`, a number, an empty
object, an object missing every required field — is returned to the caller
unchanged, without error. -/
theorem generateStudyNotes_no_local_validation (env : Option String)
    (prefs : UserPreferences) (t : String) (j : Json)
    (hp : jsonParse t = Except.ok j) :
    (generateStudyNotes env prefs (ServiceOutcome.success (some t))).result =
      Except.ok j := by
  by_cases ht : t = ""
  · rw [ht] at hp
    exact absurd hp (by simp [jsonParse, parseVal, skipWs])
  · simp [generateStudyNotes, isFalsyStr, ht, jsOr_of_truthy t "" ht, hp]

/-- C10 (witness): the reply `"null"` is returned as the value `null` without
error. -/
theorem generateStudyNotes_no_local_validation_witness :
    (generateStudyNotes none samplePrefs
      (ServiceOutcome.success (some "null"))).result = Except.ok Json.null :=
  generateStudyNotes_no_local_validation none samplePrefs "null" Json.null rfl
